import Mathlib

/-!
Shallow embedding of the GitHub Follower Notification Agent
(`follower_agent.py`, `config.py`) and verification of its
specification's claims.

The agent's observable per-tick behaviour is pure once its interactions
with the outside world are made explicit:
  * the GitHub API is modelled by the list of page responses it would
    return for pages 1, 2, ... (after the list, the API returns an empty
    page, which terminates the pagination loop);
  * the `followers.json` file is modelled by a `FileState` (absent,
    corrupt JSON, or present with parsed contents);
  * the notification transport is modelled by a boolean saying whether
    the SMTP/HTTP send succeeds, and the notification layer's calls and
    log lines are recorded as `NotifyEvent`s;
  * `datetime.now().isoformat()` is passed in as the string `now`;
  * success of the file write in `save_followers` is a boolean
    (the Python code catches any exception and logs it).
All exceptions in the Python code are caught inside the functions that
raise them, so every embedded function is total.
-/

namespace FollowerAgent

/-- Parsed contents of `followers.json` as written by `save_followers`:
a JSON object with a `followers` list and a `last_updated` timestamp. -/
structure FileData where
  followers : List String
  last_updated : String
deriving DecidableEq, Repr

/-- State of the `followers.json` file: missing (`FileNotFoundError` on
open), present but not valid JSON (`json.JSONDecodeError`), or present
with parsed data. -/
inductive FileState where
  | absent
  | corrupt
  | present (data : FileData)
deriving DecidableEq, Repr

/-- One page response of the paginated follower-listing endpoint:
either a JSON array of follower objects (we keep their `login` fields),
or a `requests.exceptions.RequestException` (network/HTTP error,
including non-2xx via `raise_for_status`). -/
inductive PageResult where
  | ok (logins : List String)
  | err
deriving DecidableEq, Repr

/-- The `while True` pagination loop of `get_current_followers`:
on an error page, log the error and `break` (returning the handles
accumulated so far, with the error flag set); on an empty page, `break`;
otherwise add each `login` to the set and continue with the next page. -/
def fetchPages : List PageResult → Finset String → Finset String × Bool
  | [], acc => (acc, false)
  | PageResult.err :: _, acc => (acc, true)
  | PageResult.ok [] :: _, acc => (acc, false)
  | PageResult.ok (l :: ls) :: rest, acc =>
      fetchPages rest ((l :: ls).foldl (fun s x => insert x s) acc)

/-- `get_current_followers`: run the pagination loop starting from the
empty set.  Returns the accumulated follower set and whether a
network/API error was logged (`Error fetching followers: ...`). -/
def get_current_followers (responses : List PageResult) : Finset String × Bool :=
  fetchPages responses ∅

/-- Which branch of `load_previous_followers` ran, i.e. which log line
was emitted: none (file read fine), the `logger.info` for a missing
file, or the `logger.error` for corrupt JSON. -/
inductive LoadOutcome where
  | fromFile
  | absentStartFresh
  | corruptStartFresh
deriving DecidableEq, Repr

/-- `load_previous_followers`: read `followers.json`; on
`FileNotFoundError` log info and return the empty set; on
`json.JSONDecodeError` log an error and return the empty set; otherwise
return `set(data.get('followers', []))`. -/
def load_previous_followers : FileState → Finset String × LoadOutcome
  | FileState.absent => (∅, LoadOutcome.absentStartFresh)
  | FileState.corrupt => (∅, LoadOutcome.corruptStartFresh)
  | FileState.present d => (d.followers.toFinset, LoadOutcome.fromFile)

/-- `save_followers`: the data written to `followers.json`, namely
`{'followers': list(followers), 'last_updated': now}`.  Python's
`list(followers)` enumerates the set in an unspecified order; we fix
the lexicographically sorted enumeration as the canonical one (the
loading side is proved enumeration-independent in the round-trip
theorem). -/
def save_followers (followers : Finset String) (now : String) : FileData :=
  ⟨followers.sort (· ≤ ·), now⟩

/-- Observable actions of the notification layer: a call of
`send_email_notification` / `send_webhook_notification` with a batch
(recording whether its transport succeeded; both functions catch any
exception and log it), or the `logger.warning` for an unknown
`NOTIFICATION_METHOD`. -/
inductive NotifyEvent where
  | email_sent (batch : List String)
  | email_error (batch : List String)
  | webhook_sent (batch : List String)
  | webhook_error (batch : List String)
  | unknown_method_warning (method : String)
deriving DecidableEq, Repr

/-- `send_email_notification`: builds and sends the email; any exception
is caught and logged, so the call always returns. -/
def send_email_notification (transportOk : Bool) (new_followers : List String) :
    NotifyEvent :=
  if transportOk then NotifyEvent.email_sent new_followers
  else NotifyEvent.email_error new_followers

/-- `send_webhook_notification`: POSTs the JSON payload; any exception
(including non-2xx via `raise_for_status`) is caught and logged. -/
def send_webhook_notification (transportOk : Bool) (new_followers : List String) :
    NotifyEvent :=
  if transportOk then NotifyEvent.webhook_sent new_followers
  else NotifyEvent.webhook_error new_followers

/-- `notify_new_followers`: return immediately on an empty batch;
dispatch to the email or webhook sender according to
`Config.NOTIFICATION_METHOD`; log a warning for any other method. -/
def notify_new_followers (method : String) (transportOk : Bool)
    (new_followers : List String) : List NotifyEvent :=
  if new_followers.isEmpty then []
  else if method = "email" then [send_email_notification transportOk new_followers]
  else if method = "webhook" then [send_webhook_notification transportOk new_followers]
  else [NotifyEvent.unknown_method_warning method]

/-- The batches actually handed to a concrete sender
(`send_email_notification` or `send_webhook_notification`), extracted
from the event log; an unknown-method warning dispatches nothing. -/
def dispatchedBatches (events : List NotifyEvent) : List (List String) :=
  events.filterMap fun e =>
    match e with
    | NotifyEvent.email_sent b => some b
    | NotifyEvent.email_error b => some b
    | NotifyEvent.webhook_sent b => some b
    | NotifyEvent.webhook_error b => some b
    | NotifyEvent.unknown_method_warning _ => none

/-- The set difference `current_followers - previous_followers` computed
by `check_for_new_followers` (Python set subtraction by handle
equality). -/
def followerDiff (current previous : Finset String) : Finset String :=
  current \ previous

/-- Everything one call of `check_for_new_followers` does or returns. -/
structure TickResult where
  events : List NotifyEvent
  snapshot : FileState
  newCount : Nat
  fetchErrorLogged : Bool
  loadOutcome : LoadOutcome
deriving DecidableEq, Repr

/-- `check_for_new_followers`: fetch `current`, load `previous`, compute
`new = current - previous`; if non-empty, notify with the sorted list;
then always call `save_followers current` (which succeeds iff `writeOk`;
on failure the file keeps its old state and the error is logged) and
return `len(new_followers)`. -/
def check_for_new_followers (method : String) (transportOk writeOk : Bool)
    (responses : List PageResult) (now : String) (st : FileState) : TickResult :=
  let fetched := get_current_followers responses
  let loaded := load_previous_followers st
  let new_followers := followerDiff fetched.1 loaded.1
  { events :=
      if new_followers = ∅ then []
      else notify_new_followers method transportOk (new_followers.sort (· ≤ ·)),
    snapshot :=
      if writeOk then FileState.present (save_followers fetched.1 now) else st,
    newCount := new_followers.card,
    fetchErrorLogged := fetched.2,
    loadOutcome := loaded.2 }

/-- `run_once`: call `check_for_new_followers` and return its count; the
`except` clause returning 0 is unreachable in the model because every
exception in the tick is caught where it is raised. -/
def run_once (method : String) (transportOk writeOk : Bool)
    (responses : List PageResult) (now : String) (st : FileState) : Nat :=
  (check_for_new_followers method transportOk writeOk responses now st).newCount

/-- `main` with `--once`: `return agent.run_once()`, whose value reaches
`exit(main())`. -/
def main_once (method : String) (transportOk writeOk : Bool)
    (responses : List PageResult) (now : String) (st : FileState) : Nat :=
  run_once method transportOk writeOk responses now st

/-- The POSIX exit status observed by the parent process:
`exit(main())` with an integer argument yields that integer truncated
to its low byte. -/
def process_exit_code (method : String) (transportOk writeOk : Bool)
    (responses : List PageResult) (now : String) (st : FileState) : Nat :=
  main_once method transportOk writeOk responses now st % 256

/-- `config.py`: the environment-derived settings the claims mention.
`os.getenv` yields `none` when the variable is unset;
`NOTIFICATION_METHOD` defaults to `"email"` so it is always a string. -/
structure Config where
  GITHUB_TOKEN : Option String
  GITHUB_USERNAME : Option String
  NOTIFICATION_METHOD : String
  EMAIL_FROM : Option String
  EMAIL_PASSWORD : Option String
  EMAIL_TO : Option String
  WEBHOOK_URL : Option String
deriving DecidableEq, Repr

/-- Python truthiness of an optional string setting: `not value` is
true exactly when the variable is unset (`None`) or empty (`""`). -/
def truthy : Option String → Bool
  | none => false
  | some s => !s.isEmpty

/-- `Config.validate`: collect error strings for the missing required
settings (token, username, and the settings of the selected
notification method — any other method value triggers no method
check); raise `ValueError` with the joined messages if any, else
return `True`. -/
def Config.validate (c : Config) : Except (List String) Bool :=
  let errors :=
    (if !truthy c.GITHUB_TOKEN then ["GITHUB_TOKEN is required"] else []) ++
    (if !truthy c.GITHUB_USERNAME then ["GITHUB_USERNAME is required"] else []) ++
    (if c.NOTIFICATION_METHOD = "email" then
      (if !truthy c.EMAIL_FROM || !truthy c.EMAIL_PASSWORD || !truthy c.EMAIL_TO then
        ["Email configuration incomplete (EMAIL_FROM, EMAIL_PASSWORD, EMAIL_TO required)"]
      else [])
    else if c.NOTIFICATION_METHOD = "webhook" then
      (if !truthy c.WEBHOOK_URL then
        ["WEBHOOK_URL is required for webhook notifications"]
      else [])
    else [])
  if errors.isEmpty then Except.ok true else Except.error errors

/-!  ## Helper lemmas  -/

/-- A no-duplicate, sorted list with the right elements is the sorted
enumeration of a finite set of handles. -/
lemma finset_sort_eq_of (s : Finset String) (l : List String)
    (hnd : l.Nodup) (hst : l.Sorted (· ≤ ·)) (htf : l.toFinset = s) :
    s.sort (· ≤ ·) = l := by
  refine List.eq_of_perm_of_sorted ?_ (Finset.sort_sorted _ _) hst
  refine List.perm_of_nodup_nodup_toFinset_eq (Finset.sort_nodup _ _) hnd ?_
  rw [Finset.sort_toFinset, htf]

/-- The sorted enumeration of a non-empty set of handles is non-empty,
so `notify_new_followers` does not take its early-return branch. -/
lemma sort_isEmpty_eq_false {s : Finset String} (h : s ≠ ∅) :
    (s.sort (· ≤ ·)).isEmpty = false := by
  cases hl : s.sort (· ≤ ·) with
  | nil =>
      exact absurd (by simpa using congrArg List.toFinset hl) h
  | cons a t => rfl

/-- The event log of one tick, written out: nothing when the diff is
empty, otherwise whatever `notify_new_followers` does with the sorted
diff. -/
lemma check_events_def (method : String) (transportOk writeOk : Bool)
    (responses : List PageResult) (now : String) (st : FileState) :
    (check_for_new_followers method transportOk writeOk responses now st).events =
      (if followerDiff (get_current_followers responses).1
          (load_previous_followers st).1 = ∅ then []
       else notify_new_followers method transportOk
        ((followerDiff (get_current_followers responses).1
          (load_previous_followers st).1).sort (· ≤ ·))) :=
  rfl

/-- With a configured method and a non-empty batch, exactly one batch —
that batch — reaches a sender, whether or not its transport succeeds. -/
lemma dispatched_notify_eq (method : String) (transportOk : Bool) (l : List String)
    (hm : method = "email" ∨ method = "webhook") (hl : l.isEmpty = false) :
    dispatchedBatches (notify_new_followers method transportOk l) = [l] := by
  rcases hm with hm | hm <;> subst hm <;> cases transportOk <;>
    simp [notify_new_followers, hl, send_email_notification,
      send_webhook_notification, dispatchedBatches]

/-- With a configured method, a non-empty batch and a failing
transport, the tick's notification layer records exactly the failed
send. -/
lemma notify_failure_eq (method : String) (l : List String)
    (hm : method = "email" ∨ method = "webhook") (hl : l.isEmpty = false) :
    notify_new_followers method false l =
      [if method = "email" then NotifyEvent.email_error l
       else NotifyEvent.webhook_error l] := by
  rcases hm with hm | hm <;> subst hm <;>
    simp [notify_new_followers, hl, send_email_notification,
      send_webhook_notification]

/-!  ## Claims  -/

/-- C7: the diff operation used by the tick is set difference:
`followerDiff A B` holds exactly the elements of `A` not in `B`,
`followerDiff A A` is empty, and `followerDiff A ∅ = A`. -/
theorem C7_follower_diff_properties (A B : Finset String) :
    (∀ x : String, x ∈ followerDiff A B ↔ x ∈ A ∧ x ∉ B) ∧
    followerDiff A A = ∅ ∧ followerDiff A (∅ : Finset String) = A := by
  unfold followerDiff
  exact ⟨fun _ => Finset.mem_sdiff, Finset.sdiff_self A, Finset.sdiff_empty⟩

/-- C8: round-trip persistence: for any non-empty follower set `F`,
saving `F` and loading it back yields exactly `F`; moreover loading is
independent of the order in which `list(followers)` happened to
enumerate the set, since any list with the same elements loads back to
`F`. -/
theorem C8_save_load_round_trip (F : Finset String) (now : String) (hne : F ≠ ∅) :
    (load_previous_followers (FileState.present (save_followers F now))).1 = F ∧
    ∀ l : List String, l.toFinset = F →
      (load_previous_followers (FileState.present ⟨l, now⟩)).1 = F := by
  constructor
  · show (F.sort (· ≤ ·)).toFinset = F
    exact Finset.sort_toFinset _ _
  · intro l hl
    exact hl

/-- Witness for C8 at `F = ("b","a")`, `now = "t"`. -/
theorem C8_witness :
    (({"b", "a"} : Finset String) ≠ ∅) ∧
    (load_previous_followers
      (FileState.present (save_followers {"b", "a"} "t"))).1 = {"b", "a"} :=
  ⟨by decide, (C8_save_load_round_trip {"b", "a"} "t" (by decide)).1⟩

/-- C4: for every tick, with a configured notification method, the
batch handed to the sender is exactly the ascending sorted list of
`current − previous` when that difference is non-empty and nothing is
dispatched when it is empty; the snapshot is updated to the fetched
set and the tick returns the size of the difference. -/
theorem C4_tick_diff_notify_save (method : String) (transportOk : Bool)
    (responses : List PageResult) (now : String) (st : FileState)
    (hm : method = "email" ∨ method = "webhook") :
    dispatchedBatches
      (check_for_new_followers method transportOk true responses now st).events =
      (if followerDiff (get_current_followers responses).1
          (load_previous_followers st).1 = ∅ then []
       else [(followerDiff (get_current_followers responses).1
          (load_previous_followers st).1).sort (· ≤ ·)]) ∧
    (check_for_new_followers method transportOk true responses now st).snapshot =
      FileState.present (save_followers (get_current_followers responses).1 now) ∧
    (check_for_new_followers method transportOk true responses now st).newCount =
      (followerDiff (get_current_followers responses).1
        (load_previous_followers st).1).card := by
  refine ⟨?_, rfl, rfl⟩
  rw [check_events_def]
  by_cases h : followerDiff (get_current_followers responses).1
      (load_previous_followers st).1 = ∅
  · rw [if_pos h, if_pos h]
    rfl
  · rw [if_neg h, if_neg h,
      dispatched_notify_eq method transportOk _ hm (sort_isEmpty_eq_false h)]

/-- Witness for C4: previous = ("a","b"), current = ("a","b","c") with
the webhook method: one dispatch of exactly ("c"), snapshot updated to
the fetched set, count 1. -/
theorem C4_witness :
    (("webhook" : String) = "email" ∨ ("webhook" : String) = "webhook") ∧
    dispatchedBatches
      (check_for_new_followers "webhook" true true [PageResult.ok ["a", "b", "c"]]
        "t1" (FileState.present ⟨["a", "b"], "t0"⟩)).events = [["c"]] ∧
    (check_for_new_followers "webhook" true true [PageResult.ok ["a", "b", "c"]]
        "t1" (FileState.present ⟨["a", "b"], "t0"⟩)).snapshot =
      FileState.present ⟨["a", "b", "c"], "t1"⟩ ∧
    (check_for_new_followers "webhook" true true [PageResult.ok ["a", "b", "c"]]
        "t1" (FileState.present ⟨["a", "b"], "t0"⟩)).newCount = 1 := by
  have h := C4_tick_diff_notify_save "webhook" true [PageResult.ok ["a", "b", "c"]]
    "t1" (FileState.present ⟨["a", "b"], "t0"⟩) (Or.inr rfl)
  have hsortd : (followerDiff (get_current_followers [PageResult.ok ["a", "b", "c"]]).1
      (load_previous_followers (FileState.present ⟨["a", "b"], "t0"⟩)).1).sort (· ≤ ·)
      = ["c"] :=
    finset_sort_eq_of _ _ (by decide) (by simp) (by decide)
  have hsortc : ((get_current_followers [PageResult.ok ["a", "b", "c"]]).1).sort (· ≤ ·)
      = ["a", "b", "c"] :=
    finset_sort_eq_of _ _ (by decide) (by simp [List.sorted_cons]; decide) (by decide)
  refine ⟨Or.inr rfl, ?_, ?_, h.2.2.trans (by decide)⟩
  · rw [h.1, if_neg (by decide), hsortd]
  · rw [h.2.1]
    show FileState.present (save_followers _ _) = _
    unfold save_followers
    rw [hsortc]

/-- C5: a failing notification transport is non-fatal: the tick still
persists the fetched set as the new snapshot and still returns the
correct new-follower count; the failure is recorded (logged) by the
selected sender. -/
theorem C5_notify_failure_nonfatal (method : String)
    (responses : List PageResult) (now : String) (st : FileState)
    (hm : method = "email" ∨ method = "webhook") :
    (check_for_new_followers method false true responses now st).snapshot =
      FileState.present (save_followers (get_current_followers responses).1 now) ∧
    (check_for_new_followers method false true responses now st).newCount =
      (followerDiff (get_current_followers responses).1
        (load_previous_followers st).1).card ∧
    (check_for_new_followers method false true responses now st).events =
      (if followerDiff (get_current_followers responses).1
          (load_previous_followers st).1 = ∅ then []
       else [if method = "email" then
          NotifyEvent.email_error ((followerDiff (get_current_followers responses).1
            (load_previous_followers st).1).sort (· ≤ ·))
        else
          NotifyEvent.webhook_error ((followerDiff (get_current_followers responses).1
            (load_previous_followers st).1).sort (· ≤ ·))]) := by
  refine ⟨rfl, rfl, ?_⟩
  rw [check_events_def]
  by_cases h : followerDiff (get_current_followers responses).1
      (load_previous_followers st).1 = ∅
  · rw [if_pos h, if_pos h]
  · rw [if_neg h, if_neg h,
      notify_failure_eq method _ hm (sort_isEmpty_eq_false h)]

/-- Witness for C5: previous = ("a"), current = ("a","c"), webhook
transport fails: snapshot still becomes ("a","c"), count is still 1,
and the failed dispatch is logged. -/
theorem C5_witness :
    (("webhook" : String) = "email" ∨ ("webhook" : String) = "webhook") ∧
    (check_for_new_followers "webhook" false true [PageResult.ok ["a", "c"]]
        "t1" (FileState.present ⟨["a"], "t0"⟩)).snapshot =
      FileState.present ⟨["a", "c"], "t1"⟩ ∧
    (check_for_new_followers "webhook" false true [PageResult.ok ["a", "c"]]
        "t1" (FileState.present ⟨["a"], "t0"⟩)).newCount = 1 ∧
    (check_for_new_followers "webhook" false true [PageResult.ok ["a", "c"]]
        "t1" (FileState.present ⟨["a"], "t0"⟩)).events =
      [NotifyEvent.webhook_error ["c"]] := by
  have h := C5_notify_failure_nonfatal "webhook" [PageResult.ok ["a", "c"]]
    "t1" (FileState.present ⟨["a"], "t0"⟩) (Or.inr rfl)
  have hsortd : (followerDiff (get_current_followers [PageResult.ok ["a", "c"]]).1
      (load_previous_followers (FileState.present ⟨["a"], "t0"⟩)).1).sort (· ≤ ·)
      = ["c"] :=
    finset_sort_eq_of _ _ (by decide) (by simp) (by decide)
  have hsortc : ((get_current_followers [PageResult.ok ["a", "c"]]).1).sort (· ≤ ·)
      = ["a", "c"] :=
    finset_sort_eq_of _ _ (by decide) (by simp [List.sorted_cons]; decide) (by decide)
  refine ⟨Or.inr rfl, ?_, h.2.1.trans (by decide), ?_⟩
  · rw [h.1]
    show FileState.present (save_followers _ _) = _
    unfold save_followers
    rw [hsortc]
  · rw [h.2.2, if_neg (by decide), if_neg (by decide), hsortd]

/-- C6: on a first run (absent snapshot) the previous set is empty, so
the dispatched batch is the entire fetched follower set in ascending
order and the count is its size. -/
theorem C6_first_run_full_batch (method : String) (transportOk : Bool)
    (responses : List PageResult) (now : String)
    (hm : method = "email" ∨ method = "webhook")
    (hne : (get_current_followers responses).1 ≠ ∅) :
    (load_previous_followers FileState.absent).1 = ∅ ∧
    dispatchedBatches
      (check_for_new_followers method transportOk true responses now
        FileState.absent).events =
      [((get_current_followers responses).1).sort (· ≤ ·)] ∧
    (check_for_new_followers method transportOk true responses now
        FileState.absent).newCount = (get_current_followers responses).1.card := by
  have hdiff : followerDiff (get_current_followers responses).1
      (load_previous_followers FileState.absent).1 =
      (get_current_followers responses).1 := Finset.sdiff_empty
  have hne2 : followerDiff (get_current_followers responses).1
      (load_previous_followers FileState.absent).1 ≠ ∅ := by
    rw [hdiff]; exact hne
  refine ⟨rfl, ?_, ?_⟩
  · rw [check_events_def, if_neg hne2, hdiff,
      dispatched_notify_eq method transportOk _ hm (sort_isEmpty_eq_false hne)]
  · show (followerDiff _ _).card = _
    rw [hdiff]

/-- Witness for C6: no prior snapshot and current = ("alice","bob"):
the dispatched batch is exactly ("alice","bob"). -/
theorem C6_witness :
    (("email" : String) = "email" ∨ ("email" : String) = "webhook") ∧
    (get_current_followers [PageResult.ok ["alice", "bob"]]).1 ≠ ∅ ∧
    dispatchedBatches
      (check_for_new_followers "email" true true [PageResult.ok ["alice", "bob"]]
        "t1" FileState.absent).events = [["alice", "bob"]] ∧
    (check_for_new_followers "email" true true [PageResult.ok ["alice", "bob"]]
        "t1" FileState.absent).newCount = 2 := by
  have h := C6_first_run_full_batch "email" true [PageResult.ok ["alice", "bob"]]
    "t1" (Or.inl rfl) (by decide)
  have hsort : ((get_current_followers [PageResult.ok ["alice", "bob"]]).1).sort (· ≤ ·)
      = ["alice", "bob"] :=
    finset_sort_eq_of _ _ (by decide) (by simp [List.sorted_cons]; decide) (by decide)
  refine ⟨Or.inl rfl, by decide, ?_, h.2.2.trans (by decide)⟩
  rw [h.2.1, hsort]

/-- C9: idempotence of the tick: a second `check_for_new_followers`
against the same remote responses (both fetches succeeding, writes
succeeding), starting from the snapshot the first tick wrote, finds 0
new followers and dispatches nothing. -/
theorem C9_tick_idempotent (method : String) (transportOk : Bool)
    (responses : List PageResult) (t1 t2 : String) (st : FileState)
    (hfetch : (get_current_followers responses).2 = false) :
    (check_for_new_followers method transportOk true responses t2
      (check_for_new_followers method transportOk true responses t1 st).snapshot).newCount
      = 0 ∧
    (check_for_new_followers method transportOk true responses t2
      (check_for_new_followers method transportOk true responses t1 st).snapshot).events
      = [] := by
  have hsnap : (check_for_new_followers method transportOk true responses t1 st).snapshot
      = FileState.present (save_followers (get_current_followers responses).1 t1) := rfl
  have hprev : (load_previous_followers
      (FileState.present (save_followers (get_current_followers responses).1 t1))).1
      = (get_current_followers responses).1 := Finset.sort_toFinset _ _
  have hdiff : followerDiff (get_current_followers responses).1
      (load_previous_followers
        (FileState.present (save_followers (get_current_followers responses).1 t1))).1
      = ∅ := by
    rw [hprev]
    exact Finset.sdiff_self _
  constructor
  · show (followerDiff _ _).card = 0
    rw [hsnap, hdiff]
    rfl
  · rw [hsnap, check_events_def, if_pos hdiff]

/-- Witness for C9 at one remote page ("a"): the fetch logs no error
and the second tick reports 0 new followers. -/
theorem C9_witness :
    (get_current_followers [PageResult.ok ["a"]]).2 = false ∧
    (check_for_new_followers "email" true true [PageResult.ok ["a"]] "t2"
      (check_for_new_followers "email" true true [PageResult.ok ["a"]] "t1"
        FileState.absent).snapshot).newCount = 0 :=
  ⟨by decide, (C9_tick_idempotent "email" true [PageResult.ok ["a"]] "t1" "t2"
    FileState.absent (by decide)).1⟩

/-- C10: with any `NOTIFICATION_METHOD` outside email/webhook,
`Config.validate` succeeds as soon as the token and username are set,
and a tick with a non-empty batch dispatches nothing to any sender —
only the unknown-method warning is logged — while the snapshot is
still persisted and the count still returned. -/
theorem C10_unknown_method_validates_and_skips (c : Config) (transportOk : Bool)
    (responses : List PageResult) (now : String) (st : FileState)
    (hm1 : c.NOTIFICATION_METHOD ≠ "email") (hm2 : c.NOTIFICATION_METHOD ≠ "webhook")
    (ht : truthy c.GITHUB_TOKEN = true) (hu : truthy c.GITHUB_USERNAME = true) :
    Config.validate c = Except.ok true ∧
    dispatchedBatches
      (check_for_new_followers c.NOTIFICATION_METHOD transportOk true
        responses now st).events = [] ∧
    (followerDiff (get_current_followers responses).1
        (load_previous_followers st).1 ≠ ∅ →
      (check_for_new_followers c.NOTIFICATION_METHOD transportOk true
        responses now st).events
        = [NotifyEvent.unknown_method_warning c.NOTIFICATION_METHOD]) ∧
    (check_for_new_followers c.NOTIFICATION_METHOD transportOk true
        responses now st).snapshot
      = FileState.present (save_followers (get_current_followers responses).1 now) ∧
    (check_for_new_followers c.NOTIFICATION_METHOD transportOk true
        responses now st).newCount
      = (followerDiff (get_current_followers responses).1
          (load_previous_followers st).1).card := by
  have hval : Config.validate c = Except.ok true := by
    simp [Config.validate, ht, hu, hm1, hm2]
  have hnotify : ∀ l : List String, l.isEmpty = false →
      notify_new_followers c.NOTIFICATION_METHOD transportOk l
        = [NotifyEvent.unknown_method_warning c.NOTIFICATION_METHOD] := by
    intro l hl
    unfold notify_new_followers
    rw [hl, if_neg (by simp), if_neg hm1, if_neg hm2]
  refine ⟨hval, ?_, ?_, rfl, rfl⟩
  · rw [check_events_def]
    by_cases h : followerDiff (get_current_followers responses).1
        (load_previous_followers st).1 = ∅
    · rw [if_pos h]
      rfl
    · rw [if_neg h, hnotify _ (sort_isEmpty_eq_false h)]
      rfl
  · intro h
    rw [check_events_def, if_neg h, hnotify _ (sort_isEmpty_eq_false h)]

/-- Witness for C10 with method "sms", token and username set, one new
follower fetched on a first run. -/
theorem C10_witness :
    ((⟨some "tok", some "user", "sms", none, none, none, none⟩ :
        Config).NOTIFICATION_METHOD ≠ "email") ∧
    ((⟨some "tok", some "user", "sms", none, none, none, none⟩ :
        Config).NOTIFICATION_METHOD ≠ "webhook") ∧
    truthy (⟨some "tok", some "user", "sms", none, none, none, none⟩ :
        Config).GITHUB_TOKEN = true ∧
    truthy (⟨some "tok", some "user", "sms", none, none, none, none⟩ :
        Config).GITHUB_USERNAME = true ∧
    Config.validate ⟨some "tok", some "user", "sms", none, none, none, none⟩
      = Except.ok true ∧
    dispatchedBatches
      (check_for_new_followers "sms" true true [PageResult.ok ["a"]] "t1"
        FileState.absent).events = [] ∧
    (check_for_new_followers "sms" true true [PageResult.ok ["a"]] "t1"
        FileState.absent).newCount = 1 := by
  have h := C10_unknown_method_validates_and_skips
    ⟨some "tok", some "user", "sms", none, none, none, none⟩ true
    [PageResult.ok ["a"]] "t1" FileState.absent
    (by decide) (by decide) (by decide) (by decide)
  exact ⟨by decide, by decide, by decide, by decide, h.1, h.2.1,
    h.2.2.2.2.trans (by decide)⟩

/-- C1 counterexample: with a prior snapshot ("a") and a network error
on the first page, the fetch error is logged, yet the snapshot does NOT
stay untouched: `save_followers` runs and overwrites the file with the
empty partially-fetched set — refuting the claim that save is never
invoked on a failed fetch. -/
theorem C1_counterexample :
    (check_for_new_followers "webhook" true true [PageResult.err] "t1"
      (FileState.present ⟨["a"], "t0"⟩)).fetchErrorLogged = true ∧
    (check_for_new_followers "webhook" true true [PageResult.err] "t1"
      (FileState.present ⟨["a"], "t0"⟩)).snapshot
      ≠ FileState.present ⟨["a"], "t0"⟩ ∧
    (check_for_new_followers "webhook" true true [PageResult.err] "t1"
      (FileState.present ⟨["a"], "t0"⟩)).snapshot
      = FileState.present ⟨[], "t1"⟩ := by
  have hsnap : (check_for_new_followers "webhook" true true [PageResult.err] "t1"
      (FileState.present ⟨["a"], "t0"⟩)).snapshot
      = FileState.present ⟨(∅ : Finset String).sort (· ≤ ·), "t1"⟩ := rfl
  rw [Finset.sort_empty] at hsnap
  exact ⟨rfl, by rw [hsnap]; decide, hsnap⟩

/-- C1 (amended): a network/API error during the fetch does not abort
the tick: pagination stops and the error is logged, but the tick
proceeds with the partially fetched set — the snapshot store's save IS
invoked and overwrites the snapshot with that partial set, and the
returned count is the size of partial − previous; when nothing beyond
the previous snapshot was fetched (e.g. the error hit the first page),
the tick returns 0 and dispatches nothing. -/
theorem C1_fetch_error_still_saves (method : String) (transportOk : Bool)
    (responses : List PageResult) (now : String) (st : FileState)
    (herr : (get_current_followers responses).2 = true) :
    (check_for_new_followers method transportOk true responses now st).fetchErrorLogged
      = true ∧
    (check_for_new_followers method transportOk true responses now st).snapshot
      = FileState.present (save_followers (get_current_followers responses).1 now) ∧
    (check_for_new_followers method transportOk true responses now st).newCount
      = (followerDiff (get_current_followers responses).1
          (load_previous_followers st).1).card ∧
    (followerDiff (get_current_followers responses).1
        (load_previous_followers st).1 = ∅ →
      (check_for_new_followers method transportOk true responses now st).newCount = 0 ∧
      (check_for_new_followers method transportOk true responses now st).events = []) := by
  refine ⟨herr, rfl, rfl, fun h => ⟨?_, ?_⟩⟩
  · show (followerDiff _ _).card = 0
    rw [h]
    rfl
  · rw [check_events_def, if_pos h]

/-- Witness for C1 (amended): first-page error over a prior snapshot
("a"). -/
theorem C1_witness :
    (get_current_followers [PageResult.err]).2 = true ∧
    (check_for_new_followers "webhook" true true [PageResult.err] "t1"
      (FileState.present ⟨["a"], "t0"⟩)).snapshot
      = FileState.present (save_followers (get_current_followers [PageResult.err]).1 "t1") ∧
    (check_for_new_followers "webhook" true true [PageResult.err] "t1"
      (FileState.present ⟨["a"], "t0"⟩)).newCount = 0 :=
  ⟨by decide,
    (C1_fetch_error_still_saves "webhook" true [PageResult.err] "t1"
      (FileState.present ⟨["a"], "t0"⟩) (by decide)).2.1,
    ((C1_fetch_error_still_saves "webhook" true [PageResult.err] "t1"
      (FileState.present ⟨["a"], "t0"⟩) (by decide)).2.2.2 (by decide)).1⟩

/-- C2 counterexample: a successful run-once tick that finds one new
follower exits with status 1, not 0 — refuting "exit code = 0
always". -/
theorem C2_counterexample :
    process_exit_code "email" true true [PageResult.ok ["a", "b"]] "t1"
      (FileState.present ⟨["a"], "t0"⟩) = 1 ∧
    process_exit_code "email" true true [PageResult.ok ["a", "b"]] "t1"
      (FileState.present ⟨["a"], "t0"⟩) ≠ 0 := by
  decide

/-- C2 (amended): in run-once mode the process exit status is
`run_once`'s return value — the new-follower count — truncated to one
byte, so it is 0 exactly when that truncated count is 0, not always;
and it does not reflect fetch success: a tick whose fetch fails on the
first page still exits 0. -/
theorem C2_exit_code_is_new_count (method : String) (transportOk writeOk : Bool)
    (responses : List PageResult) (now : String) (st : FileState) :
    process_exit_code method transportOk writeOk responses now st
      = (followerDiff (get_current_followers responses).1
          (load_previous_followers st).1).card % 256 ∧
    process_exit_code method transportOk writeOk (PageResult.err :: responses) now st
      = 0 := by
  constructor
  · rfl
  · show (followerDiff (get_current_followers (PageResult.err :: responses)).1
        (load_previous_followers st).1).card % 256 = 0
    have h : followerDiff (get_current_followers (PageResult.err :: responses)).1
        (load_previous_followers st).1 = ∅ := Finset.empty_sdiff _
    rw [h]
    rfl

/-- C3 counterexample: with a corrupt `followers.json` and one fetched
follower "a", loading does not fail — it yields the empty set — and
the tick then notifies about "a" and returns 1, exactly as if no
snapshot existed: corrupt data IS treated as an empty previous set. -/
theorem C3_counterexample :
    load_previous_followers FileState.corrupt
      = ((∅ : Finset String), LoadOutcome.corruptStartFresh) ∧
    (check_for_new_followers "email" true true [PageResult.ok ["a"]] "t1"
      FileState.corrupt).newCount = 1 ∧
    (check_for_new_followers "email" true true [PageResult.ok ["a"]] "t1"
      FileState.corrupt).events = [NotifyEvent.email_sent ["a"]] := by
  have hsort : (followerDiff (get_current_followers [PageResult.ok ["a"]]).1
      (load_previous_followers FileState.corrupt).1).sort (· ≤ ·) = ["a"] :=
    finset_sort_eq_of _ _ (by decide) (by simp) (by decide)
  refine ⟨rfl, by decide, ?_⟩
  rw [check_events_def, if_neg (by decide), hsort]
  rfl

/-- C3 (amended): corrupt snapshot data does not surface as a distinct
load failure: `json.JSONDecodeError` is caught, an error-level log line
— distinct from the absent case's info-level line — is emitted, and
the tick then treats the corrupt file exactly like an absent one: the
previous set is empty, so the tick behaves identically (same events,
same saved snapshot, and a count equal to the full fetched set). -/
theorem C3_corrupt_treated_as_absent (method : String) (transportOk : Bool)
    (responses : List PageResult) (now : String) :
    (load_previous_followers FileState.corrupt).1 = ∅ ∧
    (load_previous_followers FileState.corrupt).2 = LoadOutcome.corruptStartFresh ∧
    (load_previous_followers FileState.absent).2 = LoadOutcome.absentStartFresh ∧
    LoadOutcome.corruptStartFresh ≠ LoadOutcome.absentStartFresh ∧
    (check_for_new_followers method transportOk true responses now
        FileState.corrupt).events
      = (check_for_new_followers method transportOk true responses now
        FileState.absent).events ∧
    (check_for_new_followers method transportOk true responses now
        FileState.corrupt).snapshot
      = (check_for_new_followers method transportOk true responses now
        FileState.absent).snapshot ∧
    (check_for_new_followers method transportOk true responses now
        FileState.corrupt).newCount
      = (get_current_followers responses).1.card := by
  refine ⟨rfl, rfl, rfl, by decide, rfl, rfl, ?_⟩
  show (followerDiff (get_current_followers responses).1 (∅ : Finset String)).card = _
  rw [followerDiff, Finset.sdiff_empty]

end FollowerAgent
